import Mathlib

/-!
Shallow embedding of the SQL Server health monitor
(src/sql_health_monitor.py) and verification of its specification.

The server-side state visible to the three diagnostic queries is modelled
explicitly: the scheduler-monitor ring buffer as a list of records and
sys.dm_exec_requests as a list of request rows.  Each Python function that
prints is modelled as a function producing the list of strings it passes to
print, in order.  A monitoring cycle is modelled as a trace of events: the
calls it makes (connection open, each query function, connection close) and
the print calls it performs, with a distinguished event for the print in the
top-level exception handler.
-/

/-- One record of sys.dm_os_ring_buffers with
ring_buffer_type = RING_BUFFER_SCHEDULER_MONITOR, after the XML extraction
done inside the query of get_cpu_usage. -/
structure RingRecord where
  SystemIdle : Int
  ProcessUtilization : Int
  record_id : Int
deriving DecidableEq

/-- The row type returned by get_cpu_usage (column aliases of its SELECT). -/
structure CpuRow where
  SQL_CPU_Usage : Int
  SystemIdle : Int
  Other_Process_CPU : Int
deriving DecidableEq

/-- One row of sys.dm_exec_requests, restricted to the columns the two
query functions read.  SQL NULL string columns are modelled as plain
strings, which is the only case the display code handles. -/
structure Request where
  session_id : Int
  status : String
  command : String
  cpu_time : Int
  total_elapsed_time : Int
  reads : Int
  writes : Int
  blocking_session_id : Int
  wait_type : String
  wait_time : Int
  wait_resource : String
deriving DecidableEq

/-- The row type returned by get_active_queries. -/
structure ActiveQueryRow where
  session_id : Int
  status : String
  command : String
  cpu_time : Int
  elapsed_sec : Int
  reads : Int
  writes : Int
  blocking_session_id : Int
  wait_type : String
deriving DecidableEq

/-- The row type returned by get_blocking. -/
structure BlockingRow where
  blocking_session_id : Int
  session_id : Int
  wait_type : String
  wait_sec : Int
  wait_resource : String
deriving DecidableEq

/-- Ordering used by ORDER BY record_id DESC. -/
def ridGe (a b : RingRecord) : Prop := b.record_id ≤ a.record_id

instance : DecidableRel ridGe :=
  fun a b => inferInstanceAs (Decidable (b.record_id ≤ a.record_id))

/-- Ordering used by ORDER BY cpu_time DESC. -/
def cpuGe (a b : ActiveQueryRow) : Prop := b.cpu_time ≤ a.cpu_time

instance : DecidableRel cpuGe :=
  fun a b => inferInstanceAs (Decidable (b.cpu_time ≤ a.cpu_time))

instance : IsTotal ActiveQueryRow cpuGe :=
  ⟨fun a b => by unfold cpuGe; exact le_total _ _⟩

instance : IsTrans ActiveQueryRow cpuGe :=
  ⟨fun _ _ _ hab hbc => le_trans hbc hab⟩

instance : IsTotal RingRecord ridGe :=
  ⟨fun a b => by unfold ridGe; exact le_total _ _⟩

instance : IsTrans RingRecord ridGe :=
  ⟨fun _ _ _ hab hbc => le_trans hbc hab⟩

/-- get_cpu_usage: SELECT TOP 1 with the derived column
100 - SystemIdle - SQLProcessUtilization AS Other_Process_CPU,
ORDER BY record_id DESC; cursor.fetchone() yields none on an empty
result set. -/
def get_cpu_usage (ring : List RingRecord) : Option CpuRow :=
  (List.insertionSort ridGe ring).head?.map fun r =>
    { SQL_CPU_Usage := r.ProcessUtilization
      SystemIdle := r.SystemIdle
      Other_Process_CPU := 100 - r.SystemIdle - r.ProcessUtilization }

/-- get_active_queries: WHERE session_id > 50, the computed column
total_elapsed_time / 1000 AS elapsed_sec, ORDER BY cpu_time DESC. -/
def get_active_queries (requests : List Request) : List ActiveQueryRow :=
  List.insertionSort cpuGe
    ((requests.filter fun r => decide (50 < r.session_id)).map fun r =>
      { session_id := r.session_id
        status := r.status
        command := r.command
        cpu_time := r.cpu_time
        elapsed_sec := r.total_elapsed_time / 1000
        reads := r.reads
        writes := r.writes
        blocking_session_id := r.blocking_session_id
        wait_type := r.wait_type })

/-- get_blocking: WHERE blocking_session_id <> 0, with the computed
column wait_time / 1000 AS wait_sec. -/
def get_blocking (requests : List Request) : List BlockingRow :=
  (requests.filter fun r => decide (r.blocking_session_id ≠ 0)).map fun r =>
    { blocking_session_id := r.blocking_session_id
      session_id := r.session_id
      wait_type := r.wait_type
      wait_sec := r.wait_time / 1000
      wait_resource := r.wait_resource }

/-- Left alignment of a value in a field of the given width, as done by the
f-string format specifier of the Python source. -/
def padR (s : String) (w : Nat) : String :=
  s ++ String.mk (List.replicate (w - s.length) ' ')

/-- The 80-character separator line printed by display_header. -/
def eqLine : String := String.mk (List.replicate 80 '=')

/-- The 80-character dash line printed above table rows. -/
def dashLine : String := String.mk (List.replicate 80 '-')

/-- display_header: the four print calls, given the formatted current
wall-clock timestamp. -/
def display_header (timestamp : String) : List String :=
  [eqLine, "SQL SERVER HEALTH MONITOR", "Time: " ++ timestamp, eqLine]

/-- display_cpu applied to a present CPU row: its four print calls. -/
def display_cpu (cpu : CpuRow) : List String :=
  ["\n[CPU]",
   "SQL Server:  " ++ toString cpu.SQL_CPU_Usage ++ "%",
   "Other:       " ++ toString cpu.Other_Process_CPU ++ "%",
   "Idle:        " ++ toString cpu.SystemIdle ++ "%"]

/-- The column header row printed by display_queries. -/
def queriesHeaderLine : String :=
  padR "Session" 10 ++ " " ++ padR "Status" 12 ++ " " ++ padR "Command" 20 ++
    " " ++ padR "CPU(ms)" 10 ++ " " ++ padR "Time(s)" 10 ++ " " ++
    padR "Blocking" 10

/-- One data row printed by display_queries. -/
def queryLine (q : ActiveQueryRow) : String :=
  padR (toString q.session_id) 10 ++ " " ++ padR q.status 12 ++ " " ++
    padR q.command 20 ++ " " ++ padR (toString q.cpu_time) 10 ++ " " ++
    padR (toString q.elapsed_sec) 10 ++ " " ++
    padR (toString q.blocking_session_id) 10

/-- display_queries: banner, then either the literal empty-set line or the
column header row, a dash line and one line per row. -/
def display_queries (queries : List ActiveQueryRow) : List String :=
  "\n[ACTIVE QUERIES]" ::
    (match queries with
     | [] => ["No active queries"]
     | _ => queriesHeaderLine :: dashLine :: queries.map queryLine)

/-- The column header row printed by display_blocking. -/
def blockingHeaderLine : String :=
  padR "Blocker" 10 ++ " " ++ padR "Blocked" 10 ++ " " ++
    padR "Wait Type" 20 ++ " " ++ padR "Wait(s)" 10 ++ " " ++ padR "Resource" 30

/-- One data row printed by display_blocking. -/
def blockingLine (b : BlockingRow) : String :=
  padR (toString b.blocking_session_id) 10 ++ " " ++
    padR (toString b.session_id) 10 ++ " " ++ padR b.wait_type 20 ++ " " ++
    padR (toString b.wait_sec) 10 ++ " " ++ padR b.wait_resource 30

/-- display_blocking: banner, then either the literal empty-set line or the
column header row, a dash line and one line per row. -/
def display_blocking (blocking : List BlockingRow) : List String :=
  "\n[BLOCKING]" ::
    (match blocking with
     | [] => ["No blocking detected"]
     | _ => blockingHeaderLine :: dashLine :: blocking.map blockingLine)

/-- Events observable during one run of monitor_once: the calls it makes and
the strings it prints.  Each print event is tagged with the function whose
print statement emitted it; errOut is the print in the except handler. -/
inductive Event where
  | callConn : Event
  | callCpu : Event
  | callQueries : Event
  | callBlocking : Event
  | headerOut : String → Event
  | cpuOut : String → Event
  | queriesOut : String → Event
  | blockingOut : String → Event
  | errOut : String → Event
  | closeConn : Event
deriving DecidableEq

/-- The environment a cycle runs against: the server state seen by the
queries, an optional injected failure for the connection open and for each
of the three query calls (the exception message), and the formatted
wall-clock timestamp used by display_header. -/
structure Env where
  ringBuffer : List RingRecord
  requests : List Request
  connFail : Option String
  cpuFail : Option String
  queriesFail : Option String
  blockingFail : Option String
  timestamp : String

/-- The string printed by the except handler of monitor_once for an
exception with the given message. -/
def errLine (m : String) : String := "\n[ERROR] " ++ m

/-- Message of the Python AttributeError raised by display_cpu when
get_cpu_usage returned no row (fetchone gave None), as modelled here. -/
def noneAttrMsg : String :=
  "AttributeError: NoneType object has no attribute SQL_CPU_Usage"

/-- display_cpu applied to the possibly-absent fetchone result: the prints
it performs and the exception it raises, if any.  On an absent row the
banner print has already happened before the first attribute access
fails. -/
def display_cpu_attempt : Option CpuRow → List String × Option String
  | some cpu => (display_cpu cpu, none)
  | none => (["\n[CPU]"], some noneAttrMsg)

/-- monitor_once: one monitoring cycle over the given environment,
returning the trace of events it produces.  The body mirrors the try block
of the source: connection open, display_header, the three query calls each
followed by its display call, connection close; the first exception jumps
to the except handler, which prints one errLine. -/
def monitor_once (env : Env) : List Event :=
  match env.connFail with
  | some m => [Event.callConn, Event.errOut (errLine m)]
  | none =>
    Event.callConn ::
      ((display_header env.timestamp).map Event.headerOut ++
        (Event.callCpu ::
          match env.cpuFail with
          | some m => [Event.errOut (errLine m)]
          | none =>
            match display_cpu_attempt (get_cpu_usage env.ringBuffer) with
            | (outs, some m) => outs.map Event.cpuOut ++ [Event.errOut (errLine m)]
            | (outs, none) =>
              outs.map Event.cpuOut ++
                (Event.callQueries ::
                  match env.queriesFail with
                  | some m => [Event.errOut (errLine m)]
                  | none =>
                    (display_queries (get_active_queries env.requests)).map
                        Event.queriesOut ++
                      (Event.callBlocking ::
                        match env.blockingFail with
                        | some m => [Event.errOut (errLine m)]
                        | none =>
                          (display_blocking (get_blocking env.requests)).map
                              Event.blockingOut ++
                            [Event.closeConn]))))

/-- The message of the first exception a cycle over env raises, if any,
in the order the try block of monitor_once reaches the failure points. -/
def firstFailure (env : Env) : Option String :=
  match env.connFail with
  | some m => some m
  | none =>
    match env.cpuFail with
    | some m => some m
    | none =>
      match display_cpu_attempt (get_cpu_usage env.ringBuffer) with
      | (_, some m) => some m
      | (_, none) =>
        match env.queriesFail with
        | some m => some m
        | none => env.blockingFail

/-- Recogniser for the except-handler print event of a cycle. -/
def isErr : Event → Bool
  | Event.errOut _ => true
  | _ => false

/-- Number of except-handler prints in a cycle trace. -/
def errCount (es : List Event) : Nat := (es.filter isErr).length

/-- Events observable during monitor_continuous: its own prints and, for
each cycle, the time at which it ran together with the trace of that
cycle.  Each print event is tagged with the print statement that emitted
it: the two startup prints, the refresh print after each cycle, and the
print in the KeyboardInterrupt handler. -/
inductive CEvent where
  | startOut : String → CEvent
  | cycle : Nat → List Event → CEvent
  | refreshOut : String → CEvent
  | stopOut : String → CEvent
deriving DecidableEq

/-- The string printed by the KeyboardInterrupt handler. -/
def stopMsg : String := "\n\nMonitoring stopped by user"

/-- The refresh line printed after each cycle. -/
def refreshMsg (interval : Nat) : String :=
  "\nRefreshing in " ++ toString interval ++ " seconds..."

/-- Whether an interrupt delivered at time i (if any) lands inside the
sleep that starts right after the cycle run at time t. -/
def interruptedDuring : Option Nat → Nat → Nat → Bool
  | none, _, _ => false
  | some i, t, interval => decide (t ≤ i) && decide (i < t + interval)

/-- The while loop of monitor_continuous, under the model in which a cycle
takes negligible time and each sleep advances the clock by interval.
The loop checks the current time t against the deadline endTime, runs a
cycle over the environment scheduled for t, prints the refresh line and
sleeps; an operator interrupt delivered during that sleep raises
KeyboardInterrupt, caught by the handler which prints stopMsg once.
When interval = 0 the Python loop never advances the clock and never
terminates; the model truncates that divergent case after one pass. -/
def contLoop (interval endTime : Nat) (envAt : Nat → Env)
    (interrupt : Option Nat) (t : Nat) : List CEvent :=
  if hT : t < endTime then
    if hI : interval = 0 then
      [CEvent.cycle t (monitor_once (envAt t)),
       CEvent.refreshOut (refreshMsg interval)]
    else if interruptedDuring interrupt t interval then
      [CEvent.cycle t (monitor_once (envAt t)),
       CEvent.refreshOut (refreshMsg interval),
       CEvent.stopOut stopMsg]
    else
      CEvent.cycle t (monitor_once (envAt t)) ::
        CEvent.refreshOut (refreshMsg interval) ::
          contLoop interval endTime envAt interrupt (t + interval)
  else []
termination_by endTime - t
decreasing_by omega

/-- monitor_continuous: the two startup prints, then the loop with the
deadline end_time = now + duration, the start of the run taken as time 0. -/
def monitor_continuous (interval duration : Nat) (envAt : Nat → Env)
    (interrupt : Option Nat) : List CEvent :=
  CEvent.startOut ("Starting continuous monitoring (every " ++
      toString interval ++ "s for " ++ toString duration ++ "s)") ::
    CEvent.startOut "Press Ctrl+C to stop\n" ::
      contLoop interval duration envAt interrupt 0

/-- The times at which cycles ran, in order, extracted from a
monitor_continuous trace. -/
def cyclesOf : List CEvent → List Nat
  | [] => []
  | CEvent.cycle t _ :: es => t :: cyclesOf es
  | _ :: es => cyclesOf es

/-- Recogniser for the KeyboardInterrupt-handler print event. -/
def isStop : CEvent → Bool
  | CEvent.stopOut _ => true
  | _ => false

/-- Number of KeyboardInterrupt-handler prints in a trace. -/
def stopCount (es : List CEvent) : Nat := (es.filter isStop).length

/-- The schedule of cycle start times the loop produces when it is never
interrupted: the times t, t + interval, ... that are below endTime. -/
def schedule (interval endTime t : Nat) : List Nat :=
  if hT : t < endTime then
    if hI : interval = 0 then [t]
    else t :: schedule interval endTime (t + interval)
  else []
termination_by endTime - t
decreasing_by omega

/-- The first time at which the loop condition time < endTime is checked
and found false, ending an uninterrupted run. -/
def firstStopCheck (interval endTime t : Nat) : Nat :=
  if hT : t < endTime then
    if hI : interval = 0 then t
    else firstStopCheck interval endTime (t + interval)
  else t
termination_by endTime - t
decreasing_by omega

/-- Whether an interrupt at time i lands inside one of the sleeps the loop
actually reaches when started at time t. -/
def hitsSleep (interval endTime t i : Nat) : Bool :=
  if hT : t < endTime then
    if hI : interval = 0 then false
    else if decide (t ≤ i) && decide (i < t + interval) then true
    else hitsSleep interval endTime (t + interval) i
  else false
termination_by endTime - t
decreasing_by omega

/-- A sample ring buffer whose most recent record reports 70 percent idle
and 20 percent SQL process utilization. -/
def ringSample : List RingRecord :=
  [{ SystemIdle := 70, ProcessUtilization := 20, record_id := 1 }]

/-- A sample request table with one system session, one idle user session
and two user sessions with distinct CPU times. -/
def requestsSample : List Request :=
  [{ session_id := 40, status := "background", command := "LOG WRITER",
     cpu_time := 999, total_elapsed_time := 0, reads := 0, writes := 0,
     blocking_session_id := 0, wait_type := "NONE", wait_time := 0,
     wait_resource := "" },
   { session_id := 60, status := "running", command := "SELECT",
     cpu_time := 100, total_elapsed_time := 2500, reads := 12, writes := 0,
     blocking_session_id := 0, wait_type := "NONE", wait_time := 0,
     wait_resource := "" },
   { session_id := 75, status := "suspended", command := "UPDATE",
     cpu_time := 300, total_elapsed_time := 8200, reads := 40, writes := 7,
     blocking_session_id := 60, wait_type := "LCK_M_X", wait_time := 4200,
     wait_resource := "KEY: 5:72057594041663488" }]

/-- A sample environment in which everything succeeds. -/
def envOk : Env :=
  { ringBuffer := ringSample, requests := requestsSample,
    connFail := none, cpuFail := none, queriesFail := none,
    blockingFail := none, timestamp := "2024-12-23 10:00:00" }

/-- Claim C2: every CPU row produced by get_cpu_usage satisfies the derived
field invariant Other_Process_CPU = 100 - SystemIdle - SQL_CPU_Usage, and
display_cpu prints the three values as the labelled SQL Server, Other and
Idle lines; at idle 70 and SQL process 20 these are 20, 10 and 70 percent. -/
theorem cpu_other_is_residual (ring : List RingRecord) (row : CpuRow)
    (h : get_cpu_usage ring = some row) :
    row.Other_Process_CPU = 100 - row.SystemIdle - row.SQL_CPU_Usage ∧
    display_cpu row =
      ["\n[CPU]",
       "SQL Server:  " ++ toString row.SQL_CPU_Usage ++ "%",
       "Other:       " ++ toString row.Other_Process_CPU ++ "%",
       "Idle:        " ++ toString row.SystemIdle ++ "%"] := by
  refine ⟨?_, rfl⟩
  unfold get_cpu_usage at h
  cases hh : (List.insertionSort ridGe ring).head? with
  | none => rw [hh] at h; exact Option.noConfusion h
  | some r =>
    rw [hh] at h
    simp only [Option.map_some'] at h
    cases h
    rfl

/-- Witness for C2 at the scenario of the claim: idle 70, SQL process 20. -/
theorem cpu_other_is_residual_witness :
    get_cpu_usage ringSample =
        some { SQL_CPU_Usage := 20, SystemIdle := 70, Other_Process_CPU := 10 } ∧
      ((10 : Int) = 100 - 70 - 20 ∧
        display_cpu { SQL_CPU_Usage := 20, SystemIdle := 70,
                      Other_Process_CPU := 10 } =
          ["\n[CPU]", "SQL Server:  20%", "Other:       10%",
           "Idle:        70%"]) :=
  ⟨by decide,
    cpu_other_is_residual ringSample
      { SQL_CPU_Usage := 20, SystemIdle := 70, Other_Process_CPU := 10 }
      (by decide)⟩

/-- Claim C5: every row of get_active_queries has session_id above the
system-session threshold 50, and the rows are in non-increasing cpu_time
order. -/
theorem active_queries_threshold_and_order (requests : List Request) :
    (∀ row ∈ get_active_queries requests, 50 < row.session_id) ∧
    (get_active_queries requests).Sorted cpuGe := by
  constructor
  · intro row hrow
    unfold get_active_queries at hrow
    have hmem := (List.perm_insertionSort cpuGe _).mem_iff.mp hrow
    rcases List.mem_map.mp hmem with ⟨r, hr, hrfl⟩
    rcases List.mem_filter.mp hr with ⟨_, hcond⟩
    subst hrfl
    exact of_decide_eq_true hcond
  · exact List.sorted_insertionSort cpuGe _

/-- Witness for C5 on the sample request table. -/
theorem active_queries_threshold_and_order_witness :
    (∀ row ∈ get_active_queries requestsSample, 50 < row.session_id) ∧
    (get_active_queries requestsSample).Sorted cpuGe :=
  active_queries_threshold_and_order requestsSample

/-- Claim C6: on an empty result set display_queries prints the literal
line "No active queries" and no table header row, and display_blocking
prints the literal line "No blocking detected" and no table header row. -/
theorem empty_result_set_messages :
    display_queries [] = ["\n[ACTIVE QUERIES]", "No active queries"] ∧
    "No active queries" ∈ display_queries [] ∧
    queriesHeaderLine ∉ display_queries [] ∧
    display_blocking [] = ["\n[BLOCKING]", "No blocking detected"] ∧
    "No blocking detected" ∈ display_blocking [] ∧
    blockingHeaderLine ∉ display_blocking [] := by
  refine ⟨rfl, by decide, by decide, rfl, by decide, by decide⟩

/-- Counting except-handler prints distributes over trace concatenation. -/
theorem errCount_append (a b : List Event) :
    errCount (a ++ b) = errCount a + errCount b := by
  simp [errCount, List.filter_append]

/-- Prints emitted through a non-error print constructor contribute no
except-handler prints. -/
theorem errCount_map (f : String → Event) (hf : ∀ s, isErr (f s) = false)
    (ls : List String) : errCount (ls.map f) = 0 := by
  induction ls with
  | nil => rfl
  | cons s ss ih =>
    simp only [List.map_cons, errCount, List.filter_cons, hf s]
    simpa [errCount] using ih

/-- Counting interrupt-handler prints distributes over concatenation. -/
theorem stopCount_append (a b : List CEvent) :
    stopCount (a ++ b) = stopCount a + stopCount b := by
  simp [stopCount, List.filter_append]

/-- Every time in the schedule starting at t is at least t. -/
theorem mem_schedule_lower (interval endTime t x : Nat)
    (hx : x ∈ schedule interval endTime t) : t ≤ x := by
  rw [schedule.eq_def] at hx
  by_cases hT : t < endTime
  · rw [dif_pos hT] at hx
    by_cases hI : interval = 0
    · rw [dif_pos hI] at hx
      simp at hx
      omega
    · rw [dif_neg hI] at hx
      rcases List.mem_cons.mp hx with rfl | hx'
      · omega
      · have := mem_schedule_lower interval endTime (t + interval) x hx'
        omega
  · rw [dif_neg hT] at hx
    simp at hx
termination_by endTime - t
decreasing_by omega

/-- Every time in the schedule is below the deadline endTime: cycles are
started only while the loop condition now < end_time holds. -/
theorem mem_schedule_upper (interval endTime t x : Nat)
    (hx : x ∈ schedule interval endTime t) : x < endTime := by
  rw [schedule.eq_def] at hx
  by_cases hT : t < endTime
  · rw [dif_pos hT] at hx
    by_cases hI : interval = 0
    · rw [dif_pos hI] at hx
      simp at hx
      omega
    · rw [dif_neg hI] at hx
      rcases List.mem_cons.mp hx with rfl | hx'
      · omega
      · exact mem_schedule_upper interval endTime (t + interval) x hx'
  · rw [dif_neg hT] at hx
    simp at hx
termination_by endTime - t
decreasing_by omega

/-- In an uninterrupted run the cycle times are exactly the schedule,
whatever the per-cycle environments are: failing cycles do not change the
schedule. -/
theorem cyclesOf_contLoop_none (interval endTime : Nat) (envAt : Nat → Env)
    (t : Nat) :
    cyclesOf (contLoop interval endTime envAt none t) =
      schedule interval endTime t := by
  rw [contLoop.eq_def, schedule.eq_def]
  by_cases hT : t < endTime
  · rw [dif_pos hT, dif_pos hT]
    by_cases hI : interval = 0
    · rw [dif_pos hI, dif_pos hI]; rfl
    · rw [dif_neg hI, dif_neg hI]
      rw [if_neg (by simp [interruptedDuring])]
      simp only [cyclesOf]
      rw [cyclesOf_contLoop_none interval endTime envAt (t + interval)]
  · rw [dif_neg hT, dif_neg hT]; rfl
termination_by endTime - t
decreasing_by omega

/-- In a run interrupted at time i the cycle times are exactly the
scheduled times up to i: no cycle runs after the interrupt. -/
theorem cyclesOf_contLoop_interrupt (interval endTime i : Nat)
    (envAt : Nat → Env) (hiv : 0 < interval) (t : Nat) (hti : t ≤ i) :
    cyclesOf (contLoop interval endTime envAt (some i) t) =
      (schedule interval endTime t).filter fun x => decide (x ≤ i) := by
  rw [contLoop.eq_def, schedule.eq_def]
  by_cases hT : t < endTime
  · rw [dif_pos hT, dif_pos hT]
    have hI : ¬ interval = 0 := by omega
    rw [dif_neg hI, dif_neg hI]
    by_cases hw : interruptedDuring (some i) t interval = true
    · rw [if_pos hw]
      have hiw : i < t + interval := by
        simp only [interruptedDuring, Bool.and_eq_true, decide_eq_true_eq] at hw
        omega
      have hnil : (schedule interval endTime (t + interval)).filter
          (fun x => decide (x ≤ i)) = [] := by
        rw [List.filter_eq_nil_iff]
        intro x hxmem
        have hlow := mem_schedule_lower interval endTime (t + interval) x hxmem
        simp only [decide_eq_true_eq]
        omega
      have hrhs : (t :: schedule interval endTime (t + interval)).filter
          (fun x => decide (x ≤ i)) = [t] := by
        simp only [List.filter_cons, hnil]
        simp [hti]
      rw [hrhs]
      rfl
    · rw [if_neg hw]
      have hnext : t + interval ≤ i := by
        simp only [interruptedDuring, Bool.and_eq_true, decide_eq_true_eq] at hw
        omega
      simp only [cyclesOf]
      rw [cyclesOf_contLoop_interrupt interval endTime i envAt hiv
        (t + interval) hnext]
      simp [List.filter_cons, hti]
  · rw [dif_neg hT, dif_neg hT]; rfl
termination_by endTime - t
decreasing_by omega

/-- If the interrupt lands in a sleep the loop reaches, the loop ends right
there: the trace ends with the single interrupt-handler print. -/
theorem contLoop_interrupt_stops (interval endTime i : Nat)
    (envAt : Nat → Env) (t : Nat)
    (hhit : hitsSleep interval endTime t i = true) :
    ∃ pre, contLoop interval endTime envAt (some i) t =
        pre ++ [CEvent.stopOut stopMsg] ∧ stopCount pre = 0 := by
  rw [hitsSleep.eq_def] at hhit
  rw [contLoop.eq_def]
  by_cases hT : t < endTime
  · rw [dif_pos hT] at hhit ⊢
    by_cases hI : interval = 0
    · rw [dif_pos hI] at hhit
      exact absurd hhit (by simp)
    · rw [dif_neg hI] at hhit ⊢
      by_cases hw : (decide (t ≤ i) && decide (i < t + interval)) = true
      · have hw' : interruptedDuring (some i) t interval = true := hw
        rw [if_pos hw']
        exact ⟨[CEvent.cycle t (monitor_once (envAt t)),
                CEvent.refreshOut (refreshMsg interval)], rfl,
               by simp [stopCount, isStop]⟩
      · rw [if_neg hw] at hhit
        have hw2 : ¬ interruptedDuring (some i) t interval = true := hw
        rw [if_neg hw2]
        obtain ⟨pre, hpre, h0⟩ :=
          contLoop_interrupt_stops interval endTime i envAt (t + interval) hhit
        refine ⟨CEvent.cycle t (monitor_once (envAt t)) ::
            CEvent.refreshOut (refreshMsg interval) :: pre, ?_, ?_⟩
        · simp [hpre]
        · simpa [stopCount, List.filter_cons, isStop] using h0
  · rw [dif_neg hT] at hhit
    exact absurd hhit (by simp)
termination_by endTime - t
decreasing_by omega

/-- Claim C7: when opening the connection throws, the cycle consists of
the failed open and the error report only; none of the three query
functions is called. -/
theorem conn_failure_is_fail_fast (env : Env) (m : String)
    (h : env.connFail = some m) :
    monitor_once env = [Event.callConn, Event.errOut (errLine m)] ∧
    Event.callCpu ∉ monitor_once env ∧
    Event.callQueries ∉ monitor_once env ∧
    Event.callBlocking ∉ monitor_once env := by
  have ht : monitor_once env = [Event.callConn, Event.errOut (errLine m)] := by
    unfold monitor_once
    rw [h]
  refine ⟨ht, ?_, ?_, ?_⟩ <;> rw [ht] <;> simp

/-- A sample environment whose connection open fails. -/
def envConnFail : Env := { envOk with connFail := some "connection refused" }

/-- Witness for C7 on a concrete failing environment. -/
theorem conn_failure_is_fail_fast_witness :
    monitor_once envConnFail =
        [Event.callConn, Event.errOut (errLine "connection refused")] ∧
    Event.callCpu ∉ monitor_once envConnFail ∧
    Event.callQueries ∉ monitor_once envConnFail ∧
    Event.callBlocking ∉ monitor_once envConnFail :=
  conn_failure_is_fail_fast envConnFail "connection refused" rfl

/-- Claim C8: when the second query (get_active_queries) throws, the cycle
trace consists of exactly the header block and the CPU block already
printed, followed by the failing call and the error report: the partial
output is preserved. -/
theorem second_query_failure_keeps_output (env : Env) (cpu : CpuRow)
    (m : String) (h1 : env.connFail = none) (h2 : env.cpuFail = none)
    (h3 : get_cpu_usage env.ringBuffer = some cpu)
    (h4 : env.queriesFail = some m) :
    monitor_once env =
      Event.callConn ::
        ((display_header env.timestamp).map Event.headerOut ++
          (Event.callCpu ::
            ((display_cpu cpu).map Event.cpuOut ++
              [Event.callQueries, Event.errOut (errLine m)]))) := by
  unfold monitor_once
  rw [h1, h2, h3, h4]
  rfl

/-- A sample environment whose second query fails. -/
def envQueriesFail : Env := { envOk with queriesFail := some "query timeout" }

/-- Witness for C8 on a concrete environment whose second query fails. -/
theorem second_query_failure_keeps_output_witness :
    monitor_once envQueriesFail =
      Event.callConn ::
        ((display_header envQueriesFail.timestamp).map Event.headerOut ++
          (Event.callCpu ::
            ((display_cpu { SQL_CPU_Usage := 20, SystemIdle := 70,
                            Other_Process_CPU := 10 }).map Event.cpuOut ++
              [Event.callQueries, Event.errOut (errLine "query timeout")]))) :=
  second_query_failure_keeps_output envQueriesFail
    { SQL_CPU_Usage := 20, SystemIdle := 70, Other_Process_CPU := 10 }
    "query timeout" rfl rfl (by decide) rfl

/-- Claim C10: when the CPU query returns no ring-buffer row, display_cpu
fails after its banner print, the cycle ends with the single error line,
the active-queries and blocking sections are never printed (their queries
are not even called), and the connection is not closed by the cycle. -/
theorem absent_cpu_sample_aborts_cycle (env : Env)
    (h1 : env.connFail = none) (h2 : env.cpuFail = none)
    (h3 : get_cpu_usage env.ringBuffer = none) :
    monitor_once env =
      Event.callConn ::
        ((display_header env.timestamp).map Event.headerOut ++
          [Event.callCpu, Event.cpuOut "\n[CPU]",
           Event.errOut (errLine noneAttrMsg)]) ∧
    errCount (monitor_once env) = 1 ∧
    (∀ s, Event.queriesOut s ∉ monitor_once env) ∧
    (∀ s, Event.blockingOut s ∉ monitor_once env) ∧
    Event.callQueries ∉ monitor_once env ∧
    Event.callBlocking ∉ monitor_once env ∧
    Event.closeConn ∉ monitor_once env := by
  have ht : monitor_once env =
      Event.callConn ::
        ((display_header env.timestamp).map Event.headerOut ++
          [Event.callCpu, Event.cpuOut "\n[CPU]",
           Event.errOut (errLine noneAttrMsg)]) := by
    unfold monitor_once
    rw [h1, h2, h3]
    rfl
  refine ⟨ht, ?_, ?_, ?_, ?_, ?_, ?_⟩ <;> rw [ht] <;>
    simp [errCount, errCount_append, display_header, List.filter_cons,
      List.filter_append, isErr]

/-- A sample environment whose ring buffer is empty. -/
def envNoRing : Env := { envOk with ringBuffer := [] }

/-- Witness for C10 on a concrete environment with an empty ring buffer. -/
theorem absent_cpu_sample_aborts_cycle_witness :
    monitor_once envNoRing =
      Event.callConn ::
        ((display_header envNoRing.timestamp).map Event.headerOut ++
          [Event.callCpu, Event.cpuOut "\n[CPU]",
           Event.errOut (errLine noneAttrMsg)]) ∧
    errCount (monitor_once envNoRing) = 1 ∧
    (∀ s, Event.queriesOut s ∉ monitor_once envNoRing) ∧
    (∀ s, Event.blockingOut s ∉ monitor_once envNoRing) ∧
    Event.callQueries ∉ monitor_once envNoRing ∧
    Event.callBlocking ∉ monitor_once envNoRing ∧
    Event.closeConn ∉ monitor_once envNoRing :=
  absent_cpu_sample_aborts_cycle envNoRing rfl rfl rfl

/-- The empty trace contains no except-handler print. -/
theorem errCount_nil : errCount [] = 0 := rfl

/-- Counting except-handler prints, one event at a time. -/
theorem errCount_cons (e : Event) (es : List Event) :
    errCount (e :: es) = (if isErr e then 1 else 0) + errCount es := by
  by_cases he : isErr e <;> simp [errCount, List.filter_cons, he, Nat.add_comm]

/-- Claim C1: any exception raised during a cycle is caught at the top
level of monitor_once: the trace is a failure-free prefix followed by the
single error-report print, so the cycle always terminates normally; and in
continuous mode the cycle schedule is the same whatever failures the
per-cycle environments contain, so the loop proceeds to the next scheduled
cycle after a failing cycle. -/
theorem cycle_failures_swallowed (env : Env) (m : String)
    (h : firstFailure env = some m) :
    (∃ pre, monitor_once env = pre ++ [Event.errOut (errLine m)] ∧
      errCount pre = 0) ∧
    errCount (monitor_once env) = 1 ∧
    ∀ (interval duration : Nat) (envAt : Nat → Env),
      cyclesOf (monitor_continuous interval duration envAt none) =
        schedule interval duration 0 := by
  have main : ∃ pre, monitor_once env = pre ++ [Event.errOut (errLine m)] ∧
      errCount pre = 0 := by
    obtain ⟨rb, reqs, cf, pf, qf, bf, ts⟩ := env
    cases cf with
    | some mc =>
      simp only [firstFailure] at h
      simp only [Option.some.injEq] at h
      subst h
      exact ⟨[Event.callConn], rfl, rfl⟩
    | none =>
      cases pf with
      | some mc =>
        simp only [firstFailure] at h
        simp only [Option.some.injEq] at h
        subst h
        refine ⟨Event.callConn :: ((display_header ts).map Event.headerOut ++
          [Event.callCpu]), ?_, ?_⟩
        · simp [monitor_once]
        · simp [errCount_cons, errCount_append, errCount_nil, isErr,
            errCount_map Event.headerOut (fun _ => rfl)]
      | none =>
        cases hg : get_cpu_usage rb with
        | none =>
          simp only [firstFailure, hg] at h
          simp only [display_cpu_attempt, Option.some.injEq] at h
          subst h
          refine ⟨Event.callConn :: ((display_header ts).map Event.headerOut ++
            [Event.callCpu, Event.cpuOut "\n[CPU]"]), ?_, ?_⟩
          · simp [monitor_once, hg, display_cpu_attempt]
          · simp [errCount_cons, errCount_append, errCount_nil, isErr,
              errCount_map Event.headerOut (fun _ => rfl)]
        | some cpu =>
          cases qf with
          | some mc =>
            simp only [firstFailure, hg, display_cpu_attempt,
              Option.some.injEq] at h
            subst h
            refine ⟨Event.callConn ::
              ((display_header ts).map Event.headerOut ++
                (Event.callCpu :: ((display_cpu cpu).map Event.cpuOut ++
                  [Event.callQueries]))), ?_, ?_⟩
            · simp [monitor_once, hg, display_cpu_attempt]
            · simp [errCount_cons, errCount_append, errCount_nil, isErr,
                errCount_map Event.headerOut (fun _ => rfl),
                errCount_map Event.cpuOut (fun _ => rfl)]
          | none =>
            cases bf with
            | some mc =>
              simp only [firstFailure, hg, display_cpu_attempt,
                Option.some.injEq] at h
              subst h
              refine ⟨Event.callConn ::
                ((display_header ts).map Event.headerOut ++
                  (Event.callCpu :: ((display_cpu cpu).map Event.cpuOut ++
                    (Event.callQueries ::
                      ((display_queries (get_active_queries reqs)).map
                          Event.queriesOut ++ [Event.callBlocking]))))),
                ?_, ?_⟩
              · simp [monitor_once, hg, display_cpu_attempt]
              · simp [errCount_cons, errCount_append, errCount_nil, isErr,
                  errCount_map Event.headerOut (fun _ => rfl),
                  errCount_map Event.cpuOut (fun _ => rfl),
                  errCount_map Event.queriesOut (fun _ => rfl)]
            | none =>
              simp only [firstFailure, hg, display_cpu_attempt] at h
              exact Option.noConfusion h
  refine ⟨main, ?_, ?_⟩
  · obtain ⟨pre, hpre, h0⟩ := main
    rw [hpre, errCount_append, h0]
    rfl
  · intro interval duration envAt
    unfold monitor_continuous
    simp only [cyclesOf]
    exact cyclesOf_contLoop_none interval duration envAt 0

/-- A sample environment whose CPU query fails. -/
def envCpuFail : Env := { envOk with cpuFail := some "cpu query failed" }

/-- Witness for C1 on a concrete environment whose CPU query fails. -/
theorem cycle_failures_swallowed_witness :
    (∃ pre, monitor_once envCpuFail =
        pre ++ [Event.errOut (errLine "cpu query failed")] ∧
      errCount pre = 0) ∧
    errCount (monitor_once envCpuFail) = 1 :=
  ⟨(cycle_failures_swallowed envCpuFail "cpu query failed" rfl).1,
   (cycle_failures_swallowed envCpuFail "cpu query failed" rfl).2.1⟩

/-- Claim C3: cycles run only while the current time is below the deadline
start + duration; with interval 5 and duration 12 the loop executes exactly
the three cycles at times 0, 5 and 10, whatever the environments are, and
the loop condition check that stops the run happens at time 15. -/
theorem continuous_deadline_and_schedule :
    (∀ (interval duration t0 x : Nat),
        x ∈ schedule interval (t0 + duration) t0 → x < t0 + duration) ∧
    (∀ envAt : Nat → Env,
        cyclesOf (monitor_continuous 5 12 envAt none) = [0, 5, 10]) ∧
    (∀ envAt : Nat → Env,
        (cyclesOf (monitor_continuous 5 12 envAt none)).length = 3) ∧
    firstStopCheck 5 12 0 = 15 := by
  have hb : ∀ envAt : Nat → Env,
      cyclesOf (monitor_continuous 5 12 envAt none) = [0, 5, 10] := by
    intro envAt
    unfold monitor_continuous
    simp only [cyclesOf]
    rw [cyclesOf_contLoop_none 5 12 envAt 0]
    simp [schedule]
  refine ⟨?_, hb, ?_, ?_⟩
  · intro interval duration t0 x hx
    exact mem_schedule_upper interval (t0 + duration) t0 x hx
  · intro envAt
    rw [hb envAt]
    rfl
  · simp [firstStopCheck]

/-- Witness for C3: the concrete schedule and a concrete instance of the
deadline bound. -/
theorem continuous_deadline_and_schedule_witness :
    cyclesOf (monitor_continuous 5 12 (fun _ => envOk) none) = [0, 5, 10] ∧
    (0 : Nat) < 0 + 12 :=
  ⟨continuous_deadline_and_schedule.2.1 _,
   continuous_deadline_and_schedule.1 5 12 0 0 (by simp [schedule])⟩

/-- Claim C4: an operator interrupt delivered during an inter-cycle sleep
the loop reaches stops the loop right there: the trace ends with the
confirmation print, that print occurs exactly once, and no cycle runs at a
time after the interrupt. -/
theorem interrupt_in_sleep_stops_loop (interval duration i : Nat)
    (envAt : Nat → Env) (hi : 0 < interval)
    (hhit : hitsSleep interval duration 0 i = true) :
    (∃ pre, monitor_continuous interval duration envAt (some i) =
        pre ++ [CEvent.stopOut stopMsg] ∧ stopCount pre = 0) ∧
    stopCount (monitor_continuous interval duration envAt (some i)) = 1 ∧
    ∀ x ∈ cyclesOf (monitor_continuous interval duration envAt (some i)),
      x ≤ i := by
  obtain ⟨pre, hpre, h0⟩ :=
    contLoop_interrupt_stops interval duration i envAt 0 hhit
  have hpre0 : stopCount
      (CEvent.startOut ("Starting continuous monitoring (every " ++
          toString interval ++ "s for " ++ toString duration ++ "s)") ::
        CEvent.startOut "Press Ctrl+C to stop\n" :: pre) = 0 := by
    simpa [stopCount, List.filter_cons, isStop] using h0
  have htr : monitor_continuous interval duration envAt (some i) =
      (CEvent.startOut ("Starting continuous monitoring (every " ++
          toString interval ++ "s for " ++ toString duration ++ "s)") ::
        CEvent.startOut "Press Ctrl+C to stop\n" :: pre) ++
        [CEvent.stopOut stopMsg] := by
    unfold monitor_continuous
    rw [hpre]
    simp
  refine ⟨⟨_, htr, hpre0⟩, ?_, ?_⟩
  · rw [htr, stopCount_append, hpre0]
    rfl
  · intro x hx
    unfold monitor_continuous at hx
    simp only [cyclesOf] at hx
    rw [cyclesOf_contLoop_interrupt interval duration i envAt hi 0
      (Nat.zero_le i)] at hx
    exact of_decide_eq_true (List.mem_filter.mp hx).2

/-- Witness for C4: interrupt at time 7, mid-way through the second sleep
of a run with interval 5 and duration 12. -/
theorem interrupt_in_sleep_stops_loop_witness :
    0 < 5 ∧ hitsSleep 5 12 0 7 = true ∧
    stopCount (monitor_continuous 5 12 (fun _ => envOk) (some 7)) = 1 :=
  ⟨by decide, by simp [hitsSleep],
   (interrupt_in_sleep_stops_loop 5 12 7 (fun _ => envOk) (by decide)
     (by simp [hitsSleep])).2.1⟩
